import Mathlib

/-
Verification of the typed key-parameter registry of
src/keymaster/4.0/support/include/keymasterV4_0/keymaster_tags.h.

The KeyParameter payload union (IntegerParams) is embedded as the raw
contents of its eight bytes, viewed as a natural number below 2^64 in
little-endian order, so that the aliasing between the union members
(boolValue occupies byte 0, integer and the enum members occupy bytes
0-3, longInteger and dateTime occupy bytes 0-7) is modelled exactly.
The blob member is a separate hidl_vec and is embedded as a byte list.
-/

namespace KeymasterV4

/-- Modelled from the spec: the TagType enumeration of
keymaster/4.0/types.hal (the .hal schema is part of the repository but
not included among the source files).  Per section 3 of the spec, the
category discriminator occupies the top bits of a tag's 32-bit numeric
encoding; types.hal assigns each category the value listed here,
shifted into the top four bits. -/
inductive TagType where
  | INVALID
  | ENUM
  | ENUM_REP
  | UINT
  | UINT_REP
  | ULONG
  | DATE
  | BOOL
  | BIGNUM
  | BYTES
  | ULONG_REP
deriving DecidableEq

/-- Numeric value of a TagType, as declared in keymaster/4.0/types.hal. -/
def tagTypeValue : TagType → Nat
  | .INVALID => 0 <<< 28
  | .ENUM => 1 <<< 28
  | .ENUM_REP => 2 <<< 28
  | .UINT => 3 <<< 28
  | .UINT_REP => 4 <<< 28
  | .ULONG => 5 <<< 28
  | .DATE => 6 <<< 28
  | .BOOL => 7 <<< 28
  | .BIGNUM => 8 <<< 28
  | .BYTES => 9 <<< 28
  | .ULONG_REP => 10 <<< 28

/-- List of all TagType categories. -/
def allTagTypes : List TagType :=
  [.INVALID, .ENUM, .ENUM_REP, .UINT, .UINT_REP, .ULONG, .DATE, .BOOL,
   .BIGNUM, .BYTES, .ULONG_REP]

/-- Modelled from the spec: the closed Tag enumeration of
keymaster/4.0/types.hal (part of the repository but not among the
source files).  These are exactly the tags that appear in the switch of
the operator== in keymaster_tags.h. -/
inductive Tag where
  | INVALID
  | PURPOSE
  | ALGORITHM
  | KEY_SIZE
  | BLOCK_MODE
  | DIGEST
  | PADDING
  | CALLER_NONCE
  | MIN_MAC_LENGTH
  | EC_CURVE
  | RSA_PUBLIC_EXPONENT
  | INCLUDE_UNIQUE_ID
  | BLOB_USAGE_REQUIREMENTS
  | BOOTLOADER_ONLY
  | ROLLBACK_RESISTANCE
  | HARDWARE_TYPE
  | ACTIVE_DATETIME
  | ORIGINATION_EXPIRE_DATETIME
  | USAGE_EXPIRE_DATETIME
  | MIN_SECONDS_BETWEEN_OPS
  | MAX_USES_PER_BOOT
  | USER_ID
  | USER_SECURE_ID
  | NO_AUTH_REQUIRED
  | USER_AUTH_TYPE
  | AUTH_TIMEOUT
  | ALLOW_WHILE_ON_BODY
  | TRUSTED_USER_PRESENCE_REQUIRED
  | TRUSTED_CONFIRMATION_REQUIRED
  | UNLOCKED_DEVICE_REQUIRED
  | APPLICATION_ID
  | APPLICATION_DATA
  | CREATION_DATETIME
  | ORIGIN
  | ROOT_OF_TRUST
  | OS_VERSION
  | OS_PATCHLEVEL
  | UNIQUE_ID
  | ATTESTATION_CHALLENGE
  | ATTESTATION_APPLICATION_ID
  | ATTESTATION_ID_BRAND
  | ATTESTATION_ID_DEVICE
  | ATTESTATION_ID_PRODUCT
  | ATTESTATION_ID_SERIAL
  | ATTESTATION_ID_IMEI
  | ATTESTATION_ID_MEID
  | ATTESTATION_ID_MANUFACTURER
  | ATTESTATION_ID_MODEL
  | VENDOR_PATCHLEVEL
  | BOOT_PATCHLEVEL
  | ASSOCIATED_DATA
  | NONCE
  | MAC_LENGTH
  | RESET_SINCE_ID_ROTATION
  | CONFIRMATION_TOKEN
deriving DecidableEq

/-- Modelled from the spec: the TagType with which each tag is declared
in keymaster/4.0/types.hal (every tag is declared there as the
bitwise-or of a TagType value and a small ordinal). -/
def declaredType : Tag → TagType
  | .INVALID => .INVALID
  | .PURPOSE => .ENUM_REP
  | .ALGORITHM => .ENUM
  | .KEY_SIZE => .UINT
  | .BLOCK_MODE => .ENUM_REP
  | .DIGEST => .ENUM_REP
  | .PADDING => .ENUM_REP
  | .CALLER_NONCE => .BOOL
  | .MIN_MAC_LENGTH => .UINT
  | .EC_CURVE => .ENUM
  | .RSA_PUBLIC_EXPONENT => .ULONG
  | .INCLUDE_UNIQUE_ID => .BOOL
  | .BLOB_USAGE_REQUIREMENTS => .ENUM
  | .BOOTLOADER_ONLY => .BOOL
  | .ROLLBACK_RESISTANCE => .BOOL
  | .HARDWARE_TYPE => .ENUM
  | .ACTIVE_DATETIME => .DATE
  | .ORIGINATION_EXPIRE_DATETIME => .DATE
  | .USAGE_EXPIRE_DATETIME => .DATE
  | .MIN_SECONDS_BETWEEN_OPS => .UINT
  | .MAX_USES_PER_BOOT => .UINT
  | .USER_ID => .UINT
  | .USER_SECURE_ID => .ULONG_REP
  | .NO_AUTH_REQUIRED => .BOOL
  | .USER_AUTH_TYPE => .ENUM
  | .AUTH_TIMEOUT => .UINT
  | .ALLOW_WHILE_ON_BODY => .BOOL
  | .TRUSTED_USER_PRESENCE_REQUIRED => .BOOL
  | .TRUSTED_CONFIRMATION_REQUIRED => .BOOL
  | .UNLOCKED_DEVICE_REQUIRED => .BOOL
  | .APPLICATION_ID => .BYTES
  | .APPLICATION_DATA => .BYTES
  | .CREATION_DATETIME => .DATE
  | .ORIGIN => .ENUM
  | .ROOT_OF_TRUST => .BYTES
  | .OS_VERSION => .UINT
  | .OS_PATCHLEVEL => .UINT
  | .UNIQUE_ID => .BYTES
  | .ATTESTATION_CHALLENGE => .BYTES
  | .ATTESTATION_APPLICATION_ID => .BYTES
  | .ATTESTATION_ID_BRAND => .BYTES
  | .ATTESTATION_ID_DEVICE => .BYTES
  | .ATTESTATION_ID_PRODUCT => .BYTES
  | .ATTESTATION_ID_SERIAL => .BYTES
  | .ATTESTATION_ID_IMEI => .BYTES
  | .ATTESTATION_ID_MEID => .BYTES
  | .ATTESTATION_ID_MANUFACTURER => .BYTES
  | .ATTESTATION_ID_MODEL => .BYTES
  | .VENDOR_PATCHLEVEL => .UINT
  | .BOOT_PATCHLEVEL => .UINT
  | .ASSOCIATED_DATA => .BYTES
  | .NONCE => .BYTES
  | .MAC_LENGTH => .UINT
  | .RESET_SINCE_ID_ROTATION => .BOOL
  | .CONFIRMATION_TOKEN => .BYTES

/-- Modelled from the spec: the ordinal part of each tag's numeric
encoding in keymaster/4.0/types.hal. -/
def tagOrdinal : Tag → Nat
  | .INVALID => 0
  | .PURPOSE => 1
  | .ALGORITHM => 2
  | .KEY_SIZE => 3
  | .BLOCK_MODE => 4
  | .DIGEST => 5
  | .PADDING => 6
  | .CALLER_NONCE => 7
  | .MIN_MAC_LENGTH => 8
  | .EC_CURVE => 10
  | .RSA_PUBLIC_EXPONENT => 200
  | .INCLUDE_UNIQUE_ID => 202
  | .BLOB_USAGE_REQUIREMENTS => 301
  | .BOOTLOADER_ONLY => 302
  | .ROLLBACK_RESISTANCE => 303
  | .HARDWARE_TYPE => 304
  | .ACTIVE_DATETIME => 400
  | .ORIGINATION_EXPIRE_DATETIME => 401
  | .USAGE_EXPIRE_DATETIME => 402
  | .MIN_SECONDS_BETWEEN_OPS => 403
  | .MAX_USES_PER_BOOT => 404
  | .USER_ID => 501
  | .USER_SECURE_ID => 502
  | .NO_AUTH_REQUIRED => 503
  | .USER_AUTH_TYPE => 504
  | .AUTH_TIMEOUT => 505
  | .ALLOW_WHILE_ON_BODY => 506
  | .TRUSTED_USER_PRESENCE_REQUIRED => 507
  | .TRUSTED_CONFIRMATION_REQUIRED => 508
  | .UNLOCKED_DEVICE_REQUIRED => 509
  | .APPLICATION_ID => 601
  | .APPLICATION_DATA => 700
  | .CREATION_DATETIME => 701
  | .ORIGIN => 702
  | .ROOT_OF_TRUST => 704
  | .OS_VERSION => 705
  | .OS_PATCHLEVEL => 706
  | .UNIQUE_ID => 707
  | .ATTESTATION_CHALLENGE => 708
  | .ATTESTATION_APPLICATION_ID => 709
  | .ATTESTATION_ID_BRAND => 710
  | .ATTESTATION_ID_DEVICE => 711
  | .ATTESTATION_ID_PRODUCT => 712
  | .ATTESTATION_ID_SERIAL => 713
  | .ATTESTATION_ID_IMEI => 714
  | .ATTESTATION_ID_MEID => 715
  | .ATTESTATION_ID_MANUFACTURER => 716
  | .ATTESTATION_ID_MODEL => 717
  | .VENDOR_PATCHLEVEL => 718
  | .BOOT_PATCHLEVEL => 719
  | .ASSOCIATED_DATA => 1000
  | .NONCE => 1001
  | .MAC_LENGTH => 1003
  | .RESET_SINCE_ID_ROTATION => 1004
  | .CONFIRMATION_TOKEN => 1005

/-- Numeric (uint32) encoding of a tag: the declared TagType in the top
four bits, bitwise-or the ordinal, exactly as each enumerator of Tag is
written in keymaster/4.0/types.hal. -/
def tagValue (t : Tag) : Nat :=
  tagTypeValue (declaredType t) ||| tagOrdinal t

/-- The numeric value KM_TAG_DIGEST_OLD used to have (keymaster_tags.h
line 73); it is not a member of the closed Tag enumeration. -/
def KM_TAG_DIGEST_OLD : Nat := tagTypeValue TagType.ENUM ||| 5

/-- The numeric value KM_TAG_PADDING_OLD used to have (keymaster_tags.h
line 74); it is not a member of the closed Tag enumeration. -/
def KM_TAG_PADDING_OLD : Nat := tagTypeValue TagType.ENUM ||| 7

/-- typeFromTag of keymaster_tags.h: mask the tag's uint32 encoding
with 0xf0000000, keeping the top four bits. -/
def typeFromTag (tagCode : Nat) : Nat :=
  tagCode &&& 0xf0000000

/-- The tags for which DECLARE_TYPED_TAG is invoked in
keymaster_tags.h (lines 110-156): all tags of the closed set except
the eight ATTESTATION_ID tags. -/
def declaredTags : List Tag :=
  [.ACTIVE_DATETIME, .ALGORITHM, .ALLOW_WHILE_ON_BODY, .APPLICATION_DATA,
   .APPLICATION_ID, .ASSOCIATED_DATA, .ATTESTATION_APPLICATION_ID,
   .ATTESTATION_CHALLENGE, .AUTH_TIMEOUT, .BLOB_USAGE_REQUIREMENTS,
   .BLOCK_MODE, .BOOTLOADER_ONLY, .BOOT_PATCHLEVEL, .CALLER_NONCE,
   .CONFIRMATION_TOKEN, .CREATION_DATETIME, .DIGEST, .EC_CURVE,
   .HARDWARE_TYPE, .INCLUDE_UNIQUE_ID, .INVALID, .KEY_SIZE, .MAC_LENGTH,
   .MAX_USES_PER_BOOT, .MIN_MAC_LENGTH, .MIN_SECONDS_BETWEEN_OPS, .NONCE,
   .NO_AUTH_REQUIRED, .ORIGIN, .ORIGINATION_EXPIRE_DATETIME,
   .OS_PATCHLEVEL, .OS_VERSION, .PADDING, .PURPOSE,
   .RESET_SINCE_ID_ROTATION, .ROLLBACK_RESISTANCE, .ROOT_OF_TRUST,
   .RSA_PUBLIC_EXPONENT, .TRUSTED_CONFIRMATION_REQUIRED,
   .TRUSTED_USER_PRESENCE_REQUIRED, .UNIQUE_ID, .UNLOCKED_DEVICE_REQUIRED,
   .USAGE_EXPIRE_DATETIME, .USER_AUTH_TYPE, .USER_ID, .USER_SECURE_ID,
   .VENDOR_PATCHLEVEL]

/-- The union members of KeyParameter.f together with the blob member;
one of these is what accessTagValue resolves to for a given typed tag. -/
inductive Field where
  | boolValue
  | integer
  | longInteger
  | dateTime
  | algorithm
  | blockMode
  | paddingMode
  | digest
  | ecCurve
  | origin
  | keyBlobUsageRequirements
  | purpose
  | hardwareAuthenticatorType
  | hardwareType
  | blob
deriving DecidableEq

/-- The category-level accessTagValue overloads generated by
MAKE_TAG_VALUE_ACCESSOR (keymaster_tags.h lines 196-203): the union or
blob member selected by a tag's TagType alone.  Categories with no
such overload (INVALID, ENUM, ENUM_REP) yield none. -/
def fieldForCategory (c : Nat) : Option Field :=
  if c = tagTypeValue .ULONG then some .longInteger
  else if c = tagTypeValue .ULONG_REP then some .longInteger
  else if c = tagTypeValue .DATE then some .dateTime
  else if c = tagTypeValue .UINT then some .integer
  else if c = tagTypeValue .UINT_REP then some .integer
  else if c = tagTypeValue .BOOL then some .boolValue
  else if c = tagTypeValue .BYTES then some .blob
  else if c = tagTypeValue .BIGNUM then some .blob
  else none

/-- The member of KeyParameter that accessTagValue returns for a typed
tag: the per-tag overloads generated by MAKE_TAG_ENUM_VALUE_ACCESSOR
(keymaster_tags.h lines 219-228) for the ten enum tags, and otherwise
the category-level overload.  none means no overload exists, so code
using the accessor for that tag does not compile. -/
def tagField (t : Tag) : Option Field :=
  match t with
  | .ALGORITHM => some .algorithm
  | .BLOB_USAGE_REQUIREMENTS => some .keyBlobUsageRequirements
  | .BLOCK_MODE => some .blockMode
  | .DIGEST => some .digest
  | .EC_CURVE => some .ecCurve
  | .ORIGIN => some .origin
  | .PADDING => some .paddingMode
  | .PURPOSE => some .purpose
  | .USER_AUTH_TYPE => some .hardwareAuthenticatorType
  | .HARDWARE_TYPE => some .hardwareType
  | t => fieldForCategory (typeFromTag (tagValue t))

/-- A value stored into or read from a KeyParameter: a numeric scalar
(integer, long integer, date-time or enumeration code), a boolean, or
the byte sequence of the blob member. -/
inductive Value where
  | scalar (n : Nat)
  | boolean (b : Bool)
  | bytes (bs : List Nat)
deriving DecidableEq

/-- KeyParameter of the keymaster 4.0 HAL: the tag (stored as its
uint32 enum code), the IntegerParams union f (raw eight bytes,
little-endian, as one natural number), and the blob vector. -/
structure KeyParameter where
  tag : Nat
  f : Nat
  blob : List Nat
deriving DecidableEq

/-- Reading a union member or the blob member of a KeyParameter:
boolValue is byte 0, integer and every enum member are bytes 0-3,
longInteger and dateTime are bytes 0-7. -/
def readField (fld : Field) (p : KeyParameter) : Value :=
  match fld with
  | .blob => .bytes p.blob
  | .boolValue => .boolean (p.f % 2 ^ 8 != 0)
  | .longInteger => .scalar (p.f % 2 ^ 64)
  | .dateTime => .scalar (p.f % 2 ^ 64)
  | _ => .scalar (p.f % 2 ^ 32)

/-- Writing a union member: the member's bytes are overwritten, all
other bytes of the union keep their previous contents.  Writing the
blob member leaves the union unchanged. -/
def writeF (fld : Field) (v : Value) (f : Nat) : Nat :=
  match fld, v with
  | .boolValue, .boolean b => f / 2 ^ 8 * 2 ^ 8 + (if b then 1 else 0)
  | .longInteger, .scalar n => n % 2 ^ 64
  | .dateTime, .scalar n => n % 2 ^ 64
  | .blob, _ => f
  | _, .scalar n => f / 2 ^ 32 * 2 ^ 32 + n % 2 ^ 32
  | _, _ => f

/-- Whether a value fits the declared type of a union or blob member;
this is what the value argument of the C++ Authorization satisfies by
virtue of its static type (uint32_t, uint64_t, bool, enum code or byte
vector). -/
def validValue (fld : Field) (v : Value) : Bool :=
  match fld, v with
  | .blob, .bytes _ => true
  | .boolValue, .boolean _ => true
  | .longInteger, .scalar n => decide (n < 2 ^ 64)
  | .dateTime, .scalar n => decide (n < 2 ^ 64)
  | .blob, _ => false
  | .boolValue, _ => false
  | _, .scalar n => decide (n < 2 ^ 32)
  | _, _ => false

/-- makeKeyParameter of keymaster_tags.h (lines 230-237), the value
overload: default-construct a KeyParameter (the union starts with
indeterminate contents junk, the blob empty), set the tag, zero
f.longInteger (all eight union bytes), then assign the accessor's
member.  fld is the member accessTagValue resolves to for the typed
tag, tied to the tag by hypotheses of the theorems below. -/
def makeKeyParameter (junk : Nat) (t : Tag) (fld : Field) (v : Value) :
    KeyParameter :=
  let f1 := writeF .longInteger (.scalar 0) (junk % 2 ^ 64)
  match fld, v with
  | .blob, .bytes bs => { tag := tagValue t, f := f1, blob := bs }
  | fld2, v2 => { tag := tagValue t, f := writeF fld2 v2 f1, blob := [] }

/-- makeKeyParameter of keymaster_tags.h (lines 239-246), the
TagType::BOOL overload: default-construct a KeyParameter (the union
starts with indeterminate contents junk), set the tag, and assign
true to f.boolValue.  No member is zeroed first. -/
def makeKeyParameterBool (junk : Nat) (t : Tag) : KeyParameter :=
  { tag := tagValue t,
    f := writeF .boolValue (.boolean true) (junk % 2 ^ 64),
    blob := [] }

/-- Authorization of keymaster_tags.h (lines 262-275) for a non-BOOL
typed tag: after the static_asserts (arity one, convertible argument,
modelled by the validValue hypotheses of the theorems below) it
forwards to the value overload of makeKeyParameter. -/
def Authorization (junk : Nat) (t : Tag) (fld : Field) (v : Value) :
    KeyParameter :=
  makeKeyParameter junk t fld v

/-- Authorization of keymaster_tags.h for a TagType::BOOL typed tag:
no value argument is accepted, and it forwards to the BOOL overload of
makeKeyParameter. -/
def AuthorizationBool (junk : Nat) (t : Tag) : KeyParameter :=
  makeKeyParameterBool junk t

/-- authorizationValue of keymaster_tags.h (lines 354-359): if the
typed tag's tag differs from the parameter's tag, return an invalid
NullOr (none); otherwise return a NullOr wrapping the member that
accessTagValue resolves to.  NullOr of a reference is embedded as
Option Value; fld is the member selected at compile time for the
typed tag. -/
def authorizationValue (t : Tag) (fld : Field) (p : KeyParameter) :
    Option Value :=
  if tagValue t != p.tag then none
  else some (readField fld p)

/-- NullOrOr of keymaster_tags.h (lines 333-343), with the variadic
argument pack embedded as a list: return the first valid argument
scanning left to right, or an invalid wrapper if none is valid. -/
def NullOrOr {α : Type} : List (Option α) → Option α
  | [] => none
  | [v] => if v.isSome then v else none
  | h :: t => if h.isSome then h else NullOrOr t

/-- The comparison branches of the switch in operator==
(keymaster_tags.h lines 366-448): one branch per group of case
labels, plus the fall-through after the switch. -/
inductive EqBranch where
  | boolBranch
  | intBranch
  | longBranch
  | dateBranch
  | bytesBranch
  | purposeBranch
  | algorithmBranch
  | blockModeBranch
  | digestBranch
  | paddingBranch
  | ecCurveBranch
  | blobUsageBranch
  | userAuthBranch
  | originBranch
  | hardwareTypeBranch
  | fallthroughBranch
deriving DecidableEq

/-- The case labels of the switch in operator==, in source order, each
mapped to its comparison branch. -/
def eqSwitch : List (Nat × EqBranch) :=
  [(tagValue .INVALID, .boolBranch),
   (tagValue .CALLER_NONCE, .boolBranch),
   (tagValue .INCLUDE_UNIQUE_ID, .boolBranch),
   (tagValue .BOOTLOADER_ONLY, .boolBranch),
   (tagValue .NO_AUTH_REQUIRED, .boolBranch),
   (tagValue .ALLOW_WHILE_ON_BODY, .boolBranch),
   (tagValue .UNLOCKED_DEVICE_REQUIRED, .boolBranch),
   (tagValue .ROLLBACK_RESISTANCE, .boolBranch),
   (tagValue .RESET_SINCE_ID_ROTATION, .boolBranch),
   (tagValue .TRUSTED_CONFIRMATION_REQUIRED, .boolBranch),
   (tagValue .TRUSTED_USER_PRESENCE_REQUIRED, .boolBranch),
   (tagValue .KEY_SIZE, .intBranch),
   (tagValue .MIN_MAC_LENGTH, .intBranch),
   (tagValue .MIN_SECONDS_BETWEEN_OPS, .intBranch),
   (tagValue .MAX_USES_PER_BOOT, .intBranch),
   (tagValue .OS_VERSION, .intBranch),
   (tagValue .OS_PATCHLEVEL, .intBranch),
   (tagValue .MAC_LENGTH, .intBranch),
   (tagValue .USER_ID, .intBranch),
   (tagValue .AUTH_TIMEOUT, .intBranch),
   (tagValue .VENDOR_PATCHLEVEL, .intBranch),
   (tagValue .BOOT_PATCHLEVEL, .intBranch),
   (tagValue .RSA_PUBLIC_EXPONENT, .longBranch),
   (tagValue .USER_SECURE_ID, .longBranch),
   (tagValue .ACTIVE_DATETIME, .dateBranch),
   (tagValue .ORIGINATION_EXPIRE_DATETIME, .dateBranch),
   (tagValue .USAGE_EXPIRE_DATETIME, .dateBranch),
   (tagValue .CREATION_DATETIME, .dateBranch),
   (tagValue .APPLICATION_ID, .bytesBranch),
   (tagValue .APPLICATION_DATA, .bytesBranch),
   (tagValue .ROOT_OF_TRUST, .bytesBranch),
   (tagValue .UNIQUE_ID, .bytesBranch),
   (tagValue .ATTESTATION_CHALLENGE, .bytesBranch),
   (tagValue .ATTESTATION_APPLICATION_ID, .bytesBranch),
   (tagValue .ATTESTATION_ID_BRAND, .bytesBranch),
   (tagValue .ATTESTATION_ID_DEVICE, .bytesBranch),
   (tagValue .ATTESTATION_ID_PRODUCT, .bytesBranch),
   (tagValue .ATTESTATION_ID_SERIAL, .bytesBranch),
   (tagValue .ATTESTATION_ID_IMEI, .bytesBranch),
   (tagValue .ATTESTATION_ID_MEID, .bytesBranch),
   (tagValue .ATTESTATION_ID_MANUFACTURER, .bytesBranch),
   (tagValue .ATTESTATION_ID_MODEL, .bytesBranch),
   (tagValue .ASSOCIATED_DATA, .bytesBranch),
   (tagValue .CONFIRMATION_TOKEN, .bytesBranch),
   (tagValue .NONCE, .bytesBranch),
   (tagValue .PURPOSE, .purposeBranch),
   (tagValue .ALGORITHM, .algorithmBranch),
   (tagValue .BLOCK_MODE, .blockModeBranch),
   (tagValue .DIGEST, .digestBranch),
   (tagValue .PADDING, .paddingBranch),
   (tagValue .EC_CURVE, .ecCurveBranch),
   (tagValue .BLOB_USAGE_REQUIREMENTS, .blobUsageBranch),
   (tagValue .USER_AUTH_TYPE, .userAuthBranch),
   (tagValue .ORIGIN, .originBranch),
   (tagValue .HARDWARE_TYPE, .hardwareTypeBranch)]

/-- The comparison a branch of the switch performs, reading the union
members exactly as the source does (each enum member and integer are
the low four bytes of the union; longInteger and dateTime are all
eight; the USER_AUTH_TYPE case compares a.f.integer). -/
def branchCompare (br : EqBranch) (a b : KeyParameter) : Bool :=
  match br with
  | .boolBranch => true
  | .intBranch => a.f % 2 ^ 32 == b.f % 2 ^ 32
  | .longBranch => a.f % 2 ^ 64 == b.f % 2 ^ 64
  | .dateBranch => a.f % 2 ^ 64 == b.f % 2 ^ 64
  | .bytesBranch => a.blob == b.blob
  | .purposeBranch => a.f % 2 ^ 32 == b.f % 2 ^ 32
  | .algorithmBranch => a.f % 2 ^ 32 == b.f % 2 ^ 32
  | .blockModeBranch => a.f % 2 ^ 32 == b.f % 2 ^ 32
  | .digestBranch => a.f % 2 ^ 32 == b.f % 2 ^ 32
  | .paddingBranch => a.f % 2 ^ 32 == b.f % 2 ^ 32
  | .ecCurveBranch => a.f % 2 ^ 32 == b.f % 2 ^ 32
  | .blobUsageBranch => a.f % 2 ^ 32 == b.f % 2 ^ 32
  | .userAuthBranch => a.f % 2 ^ 32 == b.f % 2 ^ 32
  | .originBranch => a.f % 2 ^ 32 == b.f % 2 ^ 32
  | .hardwareTypeBranch => a.f % 2 ^ 32 == b.f % 2 ^ 32
  | .fallthroughBranch => false

/-- operator== on KeyParameter (keymaster_tags.h lines 361-451):
unequal tags compare false; otherwise the switch on a.tag selects a
branch, and a tag matching no case label falls through to false. -/
def keyParamEq (a b : KeyParameter) : Bool :=
  if a.tag != b.tag then false
  else branchCompare ((eqSwitch.lookup a.tag).getD .fallthroughBranch) a b

/-- The branch of the switch that handles each tag of the closed set. -/
def branchOfTag : Tag → EqBranch
  | .INVALID => .boolBranch
  | .CALLER_NONCE => .boolBranch
  | .INCLUDE_UNIQUE_ID => .boolBranch
  | .BOOTLOADER_ONLY => .boolBranch
  | .NO_AUTH_REQUIRED => .boolBranch
  | .ALLOW_WHILE_ON_BODY => .boolBranch
  | .UNLOCKED_DEVICE_REQUIRED => .boolBranch
  | .ROLLBACK_RESISTANCE => .boolBranch
  | .RESET_SINCE_ID_ROTATION => .boolBranch
  | .TRUSTED_CONFIRMATION_REQUIRED => .boolBranch
  | .TRUSTED_USER_PRESENCE_REQUIRED => .boolBranch
  | .KEY_SIZE => .intBranch
  | .MIN_MAC_LENGTH => .intBranch
  | .MIN_SECONDS_BETWEEN_OPS => .intBranch
  | .MAX_USES_PER_BOOT => .intBranch
  | .OS_VERSION => .intBranch
  | .OS_PATCHLEVEL => .intBranch
  | .MAC_LENGTH => .intBranch
  | .USER_ID => .intBranch
  | .AUTH_TIMEOUT => .intBranch
  | .VENDOR_PATCHLEVEL => .intBranch
  | .BOOT_PATCHLEVEL => .intBranch
  | .RSA_PUBLIC_EXPONENT => .longBranch
  | .USER_SECURE_ID => .longBranch
  | .ACTIVE_DATETIME => .dateBranch
  | .ORIGINATION_EXPIRE_DATETIME => .dateBranch
  | .USAGE_EXPIRE_DATETIME => .dateBranch
  | .CREATION_DATETIME => .dateBranch
  | .APPLICATION_ID => .bytesBranch
  | .APPLICATION_DATA => .bytesBranch
  | .ROOT_OF_TRUST => .bytesBranch
  | .UNIQUE_ID => .bytesBranch
  | .ATTESTATION_CHALLENGE => .bytesBranch
  | .ATTESTATION_APPLICATION_ID => .bytesBranch
  | .ATTESTATION_ID_BRAND => .bytesBranch
  | .ATTESTATION_ID_DEVICE => .bytesBranch
  | .ATTESTATION_ID_PRODUCT => .bytesBranch
  | .ATTESTATION_ID_SERIAL => .bytesBranch
  | .ATTESTATION_ID_IMEI => .bytesBranch
  | .ATTESTATION_ID_MEID => .bytesBranch
  | .ATTESTATION_ID_MANUFACTURER => .bytesBranch
  | .ATTESTATION_ID_MODEL => .bytesBranch
  | .ASSOCIATED_DATA => .bytesBranch
  | .CONFIRMATION_TOKEN => .bytesBranch
  | .NONCE => .bytesBranch
  | .PURPOSE => .purposeBranch
  | .ALGORITHM => .algorithmBranch
  | .BLOCK_MODE => .blockModeBranch
  | .DIGEST => .digestBranch
  | .PADDING => .paddingBranch
  | .EC_CURVE => .ecCurveBranch
  | .BLOB_USAGE_REQUIREMENTS => .blobUsageBranch
  | .USER_AUTH_TYPE => .userAuthBranch
  | .ORIGIN => .originBranch
  | .HARDWARE_TYPE => .hardwareTypeBranch

/-- The member tagField resolves to for each tag, written out as a
table (a computed characterization of tagField, proved equal to it
below). -/
def fieldOfTagTable : Tag → Option Field
  | .INVALID => none
  | .PURPOSE => some .purpose
  | .ALGORITHM => some .algorithm
  | .KEY_SIZE => some .integer
  | .BLOCK_MODE => some .blockMode
  | .DIGEST => some .digest
  | .PADDING => some .paddingMode
  | .CALLER_NONCE => some .boolValue
  | .MIN_MAC_LENGTH => some .integer
  | .EC_CURVE => some .ecCurve
  | .RSA_PUBLIC_EXPONENT => some .longInteger
  | .INCLUDE_UNIQUE_ID => some .boolValue
  | .BLOB_USAGE_REQUIREMENTS => some .keyBlobUsageRequirements
  | .BOOTLOADER_ONLY => some .boolValue
  | .ROLLBACK_RESISTANCE => some .boolValue
  | .HARDWARE_TYPE => some .hardwareType
  | .ACTIVE_DATETIME => some .dateTime
  | .ORIGINATION_EXPIRE_DATETIME => some .dateTime
  | .USAGE_EXPIRE_DATETIME => some .dateTime
  | .MIN_SECONDS_BETWEEN_OPS => some .integer
  | .MAX_USES_PER_BOOT => some .integer
  | .USER_ID => some .integer
  | .USER_SECURE_ID => some .longInteger
  | .NO_AUTH_REQUIRED => some .boolValue
  | .USER_AUTH_TYPE => some .hardwareAuthenticatorType
  | .AUTH_TIMEOUT => some .integer
  | .ALLOW_WHILE_ON_BODY => some .boolValue
  | .TRUSTED_USER_PRESENCE_REQUIRED => some .boolValue
  | .TRUSTED_CONFIRMATION_REQUIRED => some .boolValue
  | .UNLOCKED_DEVICE_REQUIRED => some .boolValue
  | .APPLICATION_ID => some .blob
  | .APPLICATION_DATA => some .blob
  | .CREATION_DATETIME => some .dateTime
  | .ORIGIN => some .origin
  | .ROOT_OF_TRUST => some .blob
  | .OS_VERSION => some .integer
  | .OS_PATCHLEVEL => some .integer
  | .UNIQUE_ID => some .blob
  | .ATTESTATION_CHALLENGE => some .blob
  | .ATTESTATION_APPLICATION_ID => some .blob
  | .ATTESTATION_ID_BRAND => some .blob
  | .ATTESTATION_ID_DEVICE => some .blob
  | .ATTESTATION_ID_PRODUCT => some .blob
  | .ATTESTATION_ID_SERIAL => some .blob
  | .ATTESTATION_ID_IMEI => some .blob
  | .ATTESTATION_ID_MEID => some .blob
  | .ATTESTATION_ID_MANUFACTURER => some .blob
  | .ATTESTATION_ID_MODEL => some .blob
  | .VENDOR_PATCHLEVEL => some .integer
  | .BOOT_PATCHLEVEL => some .integer
  | .ASSOCIATED_DATA => some .blob
  | .NONCE => some .blob
  | .MAC_LENGTH => some .integer
  | .RESET_SINCE_ID_ROTATION => some .boolValue
  | .CONFIRMATION_TOKEN => some .blob

theorem tagField_eq (t : Tag) : tagField t = fieldOfTagTable t := by
  cases t <;> rfl

theorem lookup_branchOfTag (t : Tag) :
    (eqSwitch.lookup (tagValue t)).getD EqBranch.fallthroughBranch =
      branchOfTag t := by
  cases t <;> rfl

theorem keyParamEq_eq_branch (t : Tag) (a b : KeyParameter)
    (ha : a.tag = tagValue t) (hb : b.tag = tagValue t) :
    keyParamEq a b = branchCompare (branchOfTag t) a b := by
  unfold keyParamEq
  rw [ha, hb, bne_self_eq_false]
  simp [lookup_branchOfTag]

theorem makeKeyParameter_tag (junk : Nat) (t : Tag) (fld : Field)
    (v : Value) : (makeKeyParameter junk t fld v).tag = tagValue t := by
  cases fld <;> cases v <;> rfl

theorem readField_makeKeyParameter (junk : Nat) (t : Tag) (fld : Field)
    (v : Value) (hv : validValue fld v = true) :
    readField fld (makeKeyParameter junk t fld v) = v := by
  cases fld <;> cases v <;>
    try (simp_all [validValue, readField, makeKeyParameter, writeF] <;> omega)
  all_goals (rename_i b; cases b <;>
    simp [makeKeyParameter, writeF, readField])

theorem NullOrOr_cons_some {α : Type} (v : α) (t : List (Option α)) :
    NullOrOr (some v :: t) = some v := by
  cases t <;> simp [NullOrOr]

theorem NullOrOr_cons_none {α : Type} (y : Option α)
    (ys : List (Option α)) :
    NullOrOr (none :: y :: ys) = NullOrOr (y :: ys) := by
  simp [NullOrOr]

/-- Claim C5: for every KeyParameter a (tag drawn from the closed Tag
enumeration, arbitrary union contents and blob, hence every category),
a == a evaluates to true. -/
theorem keyParamEq_refl (t : Tag) (f : Nat) (b : List Nat) :
    keyParamEq { tag := tagValue t, f := f, blob := b }
      { tag := tagValue t, f := f, blob := b } = true := by
  rw [keyParamEq_eq_branch t _ _ rfl rfl]
  cases t <;> simp [branchOfTag, branchCompare]

/-- Claim C10: two KeyParameters with tag Tag::INVALID compare equal
under operator== whatever their payloads, because Tag::INVALID is a
case label of the unconditional-true boolean branch of the switch,
although its derived category is not TagType::BOOL. -/
theorem keyParamEq_invalid_tag :
    branchOfTag Tag.INVALID = EqBranch.boolBranch ∧
    (typeFromTag (tagValue Tag.INVALID) == tagTypeValue TagType.BOOL) =
      false ∧
    ∀ (f f2 : Nat) (b b2 : List Nat),
      keyParamEq { tag := tagValue Tag.INVALID, f := f, blob := b }
        { tag := tagValue Tag.INVALID, f := f2, blob := b2 } = true := by
  refine ⟨rfl, by decide, ?_⟩
  intro f f2 b b2
  rw [keyParamEq_eq_branch Tag.INVALID _ _ rfl rfl]
  rfl

/-- Claim C6: every tag of the closed set is handled by exactly one
branch of the switch of operator== (its lookup among the case labels
succeeds and the case labels are pairwise distinct), so the final
fall-through is unreachable for closed-set tags; a tag code outside
the closed set falls through and compares not equal. -/
theorem keyParamEq_switch_exhaustive :
    (∀ t : Tag, (eqSwitch.lookup (tagValue t)).isSome = true) ∧
    (eqSwitch.map Prod.fst).Nodup ∧
    ∀ (code f f2 : Nat) (b b2 : List Nat),
      (∀ t : Tag, tagValue t ≠ code) →
      keyParamEq { tag := code, f := f, blob := b }
        { tag := code, f := f2, blob := b2 } = false := by
  refine ⟨fun t => by cases t <;> rfl, by decide, ?_⟩
  intro code f f2 b b2 h
  have hb : ∀ t : Tag, (code == tagValue t) = false :=
    fun t => beq_eq_false_iff_ne.mpr (fun hc => h t hc.symm)
  have hlk : eqSwitch.lookup code = none := by
    simp [eqSwitch, List.lookup, hb]
  simp [keyParamEq, hlk, branchCompare]

/-- Claim C2: operator== first compares tags and returns false on a
mismatch; for equal tags of the boolean category it returns true
unconditionally; for equal tags of every other category with an
accessor it returns exactly the natural equality of the member that
the tag-to-field mapping assigns to the tag. -/
theorem keyParamEq_dispatch :
    (∀ a b : KeyParameter, a.tag ≠ b.tag → keyParamEq a b = false) ∧
    (∀ (t : Tag) (a b : KeyParameter),
        typeFromTag (tagValue t) = tagTypeValue TagType.BOOL →
        a.tag = tagValue t → b.tag = tagValue t →
        keyParamEq a b = true) ∧
    (∀ (t : Tag) (fld : Field) (a b : KeyParameter),
        tagField t = some fld → fld ≠ Field.boolValue →
        a.tag = tagValue t → b.tag = tagValue t →
        (keyParamEq a b = true ↔ readField fld a = readField fld b)) := by
  refine ⟨?_, ?_, ?_⟩
  · intro a b h
    simp [keyParamEq, bne_iff_ne.mpr h]
  · intro t a b hc ha hb
    rw [keyParamEq_eq_branch t a b ha hb]
    cases t <;> first | rfl | exact absurd hc (by decide)
  · intro t fld a b htf hfld ha hb
    rw [tagField_eq] at htf
    rw [keyParamEq_eq_branch t a b ha hb]
    cases t <;> simp only [fieldOfTagTable] at htf <;>
      first
        | exact Option.noConfusion htf
        | (injection htf with h2; subst h2;
           first
             | exact absurd rfl hfld
             | simp [branchOfTag, branchCompare, readField])

/-- Claim C1: for every typed tag with an accessor and non-boolean
category and every value of the mapped type, authorizationValue of the
tag on Authorization of (tag, value) is a valid wrapper holding that
value; for boolean-presence typed tags, authorizationValue of the tag
on Authorization of the tag alone is a valid wrapper holding true. -/
theorem authorizationValue_roundtrip :
    (∀ (junk : Nat) (t : Tag) (fld : Field) (v : Value),
        tagField t = some fld →
        (typeFromTag (tagValue t) == tagTypeValue TagType.BOOL) = false →
        validValue fld v = true →
        authorizationValue t fld (Authorization junk t fld v) = some v) ∧
    (∀ (junk : Nat) (t : Tag),
        typeFromTag (tagValue t) = tagTypeValue TagType.BOOL →
        authorizationValue t Field.boolValue (AuthorizationBool junk t) =
          some (Value.boolean true)) := by
  constructor
  · intro junk t fld v htf hnb hv
    simp [authorizationValue, Authorization, makeKeyParameter_tag,
          readField_makeKeyParameter junk t fld v hv]
  · intro junk t hc
    simp [authorizationValue, AuthorizationBool, makeKeyParameterBool,
          writeF, readField]
    omega

theorem authorizationValue_roundtrip_witness :
    authorizationValue Tag.KEY_SIZE Field.integer
        (Authorization 7 Tag.KEY_SIZE Field.integer (Value.scalar 128)) =
      some (Value.scalar 128) ∧
    authorizationValue Tag.CALLER_NONCE Field.boolValue
        (AuthorizationBool 7 Tag.CALLER_NONCE) =
      some (Value.boolean true) :=
  ⟨authorizationValue_roundtrip.1 7 Tag.KEY_SIZE Field.integer
      (Value.scalar 128) (by decide) (by decide) (by decide),
   authorizationValue_roundtrip.2 7 Tag.CALLER_NONCE (by decide)⟩

/-- Claim C4: authorizationValue returns an absent wrapper whenever the
parameter's tag differs from the typed tag's tag, whatever the payload;
on a tag match it returns a valid wrapper over the member selected by
the tag's accessor. -/
theorem authorizationValue_absent_on_mismatch :
    ∀ (t : Tag) (fld : Field) (p : KeyParameter),
      tagField t = some fld →
      (p.tag ≠ tagValue t → authorizationValue t fld p = none) ∧
      (p.tag = tagValue t →
        authorizationValue t fld p = some (readField fld p)) := by
  intro t fld p _
  constructor
  · intro h
    simp [authorizationValue, bne_iff_ne.mpr (Ne.symm h)]
  · intro h
    simp [authorizationValue, h]

theorem authorizationValue_absent_on_mismatch_witness :
    authorizationValue Tag.ALGORITHM Field.algorithm
        { tag := tagValue Tag.PURPOSE, f := 5, blob := [] } = none ∧
    authorizationValue Tag.ALGORITHM Field.algorithm
        { tag := tagValue Tag.ALGORITHM, f := 5, blob := [] } =
      some (Value.scalar 5) :=
  ⟨(authorizationValue_absent_on_mismatch Tag.ALGORITHM Field.algorithm
      { tag := tagValue Tag.PURPOSE, f := 5, blob := [] }
      (by decide)).1 (by decide),
   by
     simpa [readField] using
       (authorizationValue_absent_on_mismatch Tag.ALGORITHM
         Field.algorithm
         { tag := tagValue Tag.ALGORITHM, f := 5, blob := [] }
         (by decide)).2 rfl⟩

/-- Claim C8: the KeyParameter built by Authorization carries the typed
tag's tag in its tag member and the supplied value in the member the
tag's accessor selects; a boolean-presence Authorization sets the
boolValue member to true. -/
theorem Authorization_postcondition :
    (∀ (junk : Nat) (t : Tag) (fld : Field) (v : Value),
        tagField t = some fld → validValue fld v = true →
        (Authorization junk t fld v).tag = tagValue t ∧
        readField fld (Authorization junk t fld v) = v) ∧
    (∀ (junk : Nat) (t : Tag),
        typeFromTag (tagValue t) = tagTypeValue TagType.BOOL →
        (AuthorizationBool junk t).tag = tagValue t ∧
        readField Field.boolValue (AuthorizationBool junk t) =
          Value.boolean true) := by
  constructor
  · intro junk t fld v _ hv
    exact ⟨makeKeyParameter_tag junk t fld v,
           readField_makeKeyParameter junk t fld v hv⟩
  · intro junk t _
    refine ⟨rfl, ?_⟩
    simp [AuthorizationBool, makeKeyParameterBool, writeF, readField]
    omega

theorem Authorization_postcondition_witness :
    ((Authorization 3 Tag.NONCE Field.blob (Value.bytes [1, 2, 3])).tag =
        tagValue Tag.NONCE ∧
      readField Field.blob
          (Authorization 3 Tag.NONCE Field.blob (Value.bytes [1, 2, 3])) =
        Value.bytes [1, 2, 3]) ∧
    ((AuthorizationBool 3 Tag.BOOTLOADER_ONLY).tag =
        tagValue Tag.BOOTLOADER_ONLY ∧
      readField Field.boolValue (AuthorizationBool 3 Tag.BOOTLOADER_ONLY) =
        Value.boolean true) :=
  ⟨Authorization_postcondition.1 3 Tag.NONCE Field.blob
      (Value.bytes [1, 2, 3]) (by decide) (by decide),
   Authorization_postcondition.2 3 Tag.BOOTLOADER_ONLY (by decide)⟩

/-- Claim C3, counterexample: the TagType::BOOL overload of
makeKeyParameter performs no zero-initialization, so with prior union
contents 256 the non-active longInteger slot of a boolean Authorization
reads 257, not zero, and its value depends on the prior contents; and
even for the value overload a non-active slot overlapping the active
member reads the value, not zero (KEY_SIZE 128 read through dateTime). -/
theorem makeKeyParameterBool_counterexample :
    readField Field.longInteger (AuthorizationBool 256 Tag.CALLER_NONCE) =
      Value.scalar 257 ∧
    readField Field.longInteger (AuthorizationBool 0 Tag.CALLER_NONCE) =
      Value.scalar 1 ∧
    (Value.scalar 257 == Value.scalar 0) = false ∧
    (Value.scalar 257 == Value.scalar 1) = false ∧
    readField Field.dateTime
        (Authorization 0 Tag.KEY_SIZE Field.integer (Value.scalar 128)) =
      Value.scalar 128 ∧
    (Value.scalar 128 == Value.scalar 0) = false := by
  decide

/-- Claim C3 (amended): the value overload of makeKeyParameter zeroes
the whole payload union before setting the active member, so its result
is independent of the union's prior (uninitialized) contents and, for
an active member narrower than eight bytes, the bytes beyond the active
member read zero; the TagType::BOOL overload performs no
zero-initialization: it writes only the boolValue byte and the
remaining union bytes keep their prior contents. -/
theorem makeKeyParameter_zero_initialization :
    (∀ (junk junk2 : Nat) (t : Tag) (fld : Field) (v : Value),
        makeKeyParameter junk t fld v = makeKeyParameter junk2 t fld v) ∧
    (∀ (junk : Nat) (t : Tag) (fld : Field) (v : Value),
        fld ≠ Field.longInteger → fld ≠ Field.dateTime →
        (makeKeyParameter junk t fld v).f < 2 ^ 32) ∧
    (∀ (junk : Nat) (t : Tag),
        (makeKeyParameterBool junk t).f % 2 ^ 8 = 1 ∧
        (makeKeyParameterBool junk t).f / 2 ^ 8 =
          junk % 2 ^ 64 / 2 ^ 8) := by
  refine ⟨?_, ?_, ?_⟩
  · intro junk junk2 t fld v
    cases fld <;> cases v <;> simp [makeKeyParameter, writeF]
  · intro junk t fld v h1 h2
    cases fld <;> cases v <;> simp_all [makeKeyParameter, writeF] <;>
      first | omega | (split <;> omega)
  · intro junk t
    constructor <;> simp [makeKeyParameterBool, writeF] <;> omega

theorem makeKeyParameter_zero_initialization_witness :
    makeKeyParameter 256 Tag.KEY_SIZE Field.integer (Value.scalar 128) =
      makeKeyParameter 0 Tag.KEY_SIZE Field.integer (Value.scalar 128) ∧
    (makeKeyParameter 256 Tag.KEY_SIZE Field.integer
        (Value.scalar 128)).f < 2 ^ 32 ∧
    (makeKeyParameterBool 256 Tag.CALLER_NONCE).f % 2 ^ 8 = 1 :=
  ⟨makeKeyParameter_zero_initialization.1 256 0 Tag.KEY_SIZE
      Field.integer (Value.scalar 128),
   makeKeyParameter_zero_initialization.2.1 256 Tag.KEY_SIZE
      Field.integer (Value.scalar 128) (by decide) (by decide),
   (makeKeyParameter_zero_initialization.2.2 256 Tag.CALLER_NONCE).1⟩

/-- Claim C7: typeFromTag recovers, for every tag of the closed set,
exactly the TagType with which that tag is declared (so the category is
total and single-valued: the TagType list is complete and its values
are pairwise distinct), and the construction-time assertion typeFromTag
tag = tag_type holds for every tag of the DECLARE_TYPED_TAG list. -/
theorem typeFromTag_total :
    (∀ t : Tag, typeFromTag (tagValue t) = tagTypeValue (declaredType t)) ∧
    (∀ c : TagType, c ∈ allTagTypes) ∧
    (allTagTypes.map tagTypeValue).Nodup ∧
    (declaredTags.all (fun t =>
        typeFromTag (tagValue t) == tagTypeValue (declaredType t)) =
      true) := by
  refine ⟨fun t => by cases t <;> decide, fun c => by cases c <;> decide,
          by decide, by decide⟩

/-- Claim C9: NullOrOr returns the first valid wrapper scanning left to
right, independently of everything after it, and returns an invalid
wrapper when no argument is valid. -/
theorem NullOrOr_first_valid :
    (∀ (α : Type) (pre rest : List (Option α)) (v : α),
        (∀ x ∈ pre, x = none) →
        NullOrOr (pre ++ some v :: rest) = some v) ∧
    (∀ (α : Type) (l : List (Option α)),
        (∀ x ∈ l, x = none) → NullOrOr l = none) := by
  constructor
  · intro α pre rest v
    induction pre with
    | nil => intro _; exact NullOrOr_cons_some v rest
    | cons x xs ih =>
      intro h
      have hx : x = none := h x (List.mem_cons_self x xs)
      have ih2 : NullOrOr (xs ++ some v :: rest) = some v :=
        ih (fun y hy => h y (List.mem_cons_of_mem x hy))
      subst hx
      rw [List.cons_append]
      cases hxe : xs ++ some v :: rest with
      | nil => simp at hxe
      | cons z zs =>
        rw [NullOrOr_cons_none, ← hxe]
        exact ih2
  · intro α l
    induction l with
    | nil => intro _; rfl
    | cons x xs ih =>
      intro h
      have hx : x = none := h x (List.mem_cons_self x xs)
      have ih2 : NullOrOr xs = none :=
        ih (fun y hy => h y (List.mem_cons_of_mem x hy))
      subst hx
      cases xs with
      | nil => rfl
      | cons z zs => rw [NullOrOr_cons_none, ih2]

theorem NullOrOr_first_valid_witness :
    NullOrOr [none, none, some 5] = some (5 : Nat) ∧
    NullOrOr ([none, none] : List (Option Nat)) = none :=
  ⟨NullOrOr_first_valid.1 Nat [none, none] [] 5 (by decide),
   NullOrOr_first_valid.2 Nat [none, none] (by decide)⟩

theorem keyParamEq_dispatch_witness :
    keyParamEq { tag := tagValue Tag.KEY_SIZE, f := 1, blob := [] }
      { tag := tagValue Tag.PURPOSE, f := 1, blob := [] } = false ∧
    keyParamEq { tag := tagValue Tag.CALLER_NONCE, f := 0, blob := [] }
      { tag := tagValue Tag.CALLER_NONCE, f := 99, blob := [] } = true ∧
    (keyParamEq { tag := tagValue Tag.KEY_SIZE, f := 128, blob := [] }
        { tag := tagValue Tag.KEY_SIZE, f := 128, blob := [] } = true ↔
      readField Field.integer
          { tag := tagValue Tag.KEY_SIZE, f := 128, blob := [] } =
        readField Field.integer
          { tag := tagValue Tag.KEY_SIZE, f := 128, blob := [] }) :=
  ⟨keyParamEq_dispatch.1 _ _ (by decide),
   keyParamEq_dispatch.2.1 Tag.CALLER_NONCE _ _ (by decide) rfl rfl,
   keyParamEq_dispatch.2.2 Tag.KEY_SIZE Field.integer _ _ (by decide)
     (by decide) rfl rfl⟩

theorem keyParamEq_switch_exhaustive_witness :
    keyParamEq { tag := KM_TAG_DIGEST_OLD, f := 5, blob := [] }
      { tag := KM_TAG_DIGEST_OLD, f := 5, blob := [] } = false :=
  keyParamEq_switch_exhaustive.2.2 KM_TAG_DIGEST_OLD 5 5 [] []
    (fun t => by cases t <;> decide)

end KeymasterV4
